import Mathlib

/-!
Shallow embedding of the nearby-place aggregation pipeline and the
request-deduplication guard of the NEST bot, translated from the live
handler package (app/handlers/location.py together with app/handlers/state.py,
app/google_maps.py and app/generators.py).  Times are modelled as natural
numbers (seconds of the event-loop monotonic clock); external collaborators
(distance computation, geocoding, translation) are oracle parameters.
-/

namespace NEST

/-! ## Request Deduplication Guard (app/handlers/location.py, handle_tell_more) -/

/-- One value of the active_deepseek_requests map
    (app/handlers/state.py line 16): a dict with keys "active" and
    "timestamp". -/
structure GuardEntry where
  active : Bool
  timestamp : Nat
deriving DecidableEq

/-- Outcome of the guard section of handle_tell_more for one request. -/
inductive TellMoreDecision where
  | rejectedInProgress
  | rejectedCooldown (remaining : Nat)
  | accepted
deriving DecidableEq

/-- Cooldown window in seconds (location.py lines 416-417). -/
def cooldownSeconds : Nat := 300

/-- The guard check of handle_tell_more (location.py lines 406-422):
    a missing key is accepted; an active entry is rejected as in-progress;
    an inactive entry within the cooldown window is rejected with
    remaining = 300 - elapsed; otherwise the request is accepted. -/
def guardCheck (entry : Option GuardEntry) (now : Nat) : TellMoreDecision :=
  match entry with
  | none => TellMoreDecision.accepted
  | some e =>
    if e.active then TellMoreDecision.rejectedInProgress
    else if now - e.timestamp < cooldownSeconds then
      TellMoreDecision.rejectedCooldown (cooldownSeconds - (now - e.timestamp))
    else TellMoreDecision.accepted

/-- Completion of the in-flight call (location.py line 591 on success,
    line 595 in the except branch): only the active field is cleared, the
    stored timestamp is not touched and the clock is not read again. -/
def completeEntry (e : GuardEntry) : GuardEntry := { e with active := false }

/-- Whole-flow effect of handle_tell_more on the guard entry of one key
    (location.py lines 404-601).  checkTime is the loop time at the guard
    check, markTime the loop time when the entry is written with
    active := true (line 435-438), completionTime the loop time when the
    generation call finishes, and fails says whether a step after the mark
    raises.  On acceptance the entry becomes active with timestamp markTime
    and, whether the flow succeeds (line 591) or raises (line 595), ends
    with completeEntry applied, so completionTime is never consulted. -/
def tellMoreGuard (entry : Option GuardEntry)
    (checkTime markTime completionTime : Nat) (fails : Bool) :
    Option GuardEntry × TellMoreDecision :=
  match guardCheck entry checkTime with
  | TellMoreDecision.accepted =>
    let marked : GuardEntry := { active := true, timestamp := markTime }
    let final : GuardEntry :=
      if fails then completeEntry marked else completeEntry marked
    (some final, TellMoreDecision.accepted)
  | d => (entry, d)

/-! ## Interleaving model for two concurrent tell-more requests on one key.

The handler body is cut at its awaited calls into atomic segments:
segment 0 is the synchronous guard check (location.py lines 406-422);
the awaited callback.answer at line 424 is a suspension point; segment 1
writes the entry with active := true (lines 435-438); the generation work
is awaited; segment 2 clears the active flag (line 591 / line 595). -/

/-- Program counter and bookkeeping of one tell-more task.
    pc 0: before the guard check; pc 1: check passed, suspended in the
    awaited callback.answer, mark not yet written; pc 2: entry marked
    active and the expensive generation call started; pc 3: finished or
    rejected.  started records whether the task reached the generation
    call. -/
structure TaskState where
  pc : Nat
  started : Bool
deriving DecidableEq

/-- One atomic segment of a tell-more task acting on the shared guard
    entry of its key. -/
def stepTask (now : Nat) (g : Option GuardEntry) (t : TaskState) :
    Option GuardEntry × TaskState :=
  match t.pc with
  | 0 =>
    match guardCheck g now with
    | TellMoreDecision.accepted => (g, { t with pc := 1 })
    | _ => (g, { t with pc := 3 })
  | 1 => (some { active := true, timestamp := now }, { pc := 2, started := true })
  | 2 => (g.map completeEntry, { t with pc := 3 })
  | _ => (g, t)

/-- Shared state of two concurrent tell-more requests for the same
    (user_id, place_index) key. -/
structure TwoReqState where
  guard : Option GuardEntry
  task1 : TaskState
  task2 : TaskState
deriving DecidableEq

/-- Run one atomic segment of the chosen task (true picks task1). -/
def stepSystem (now : Nat) (s : TwoReqState) (first : Bool) : TwoReqState :=
  if first then
    let r := stepTask now s.guard s.task1
    { s with guard := r.1, task1 := r.2 }
  else
    let r := stepTask now s.guard s.task2
    { s with guard := r.1, task2 := r.2 }

/-- Run a cooperative schedule, one atomic segment per entry. -/
def runSchedule (now : Nat) (s : TwoReqState) : List Bool → TwoReqState
  | [] => s
  | b :: bs => runSchedule now (stepSystem now s b) bs

/-- Initial state: no guard entry for the key, both requests just arrived. -/
def initTwoReq : TwoReqState :=
  { guard := none, task1 := { pc := 0, started := false },
    task2 := { pc := 0, started := false } }

/-- The schedule in which both tasks run their guard-check segment before
    either reaches the mark-active segment; it is realisable because the
    awaited callback.answer at location.py line 424 suspends each task
    between its check and its mark. -/
def raceSchedule : List Bool := [true, false, true, false]

/-! ## Claims about the guard -/

/-- Claim C1: with an inactive guard entry, a tell-more request arriving
    while the elapsed time since the stored timestamp is below 300 seconds
    is rejected with remaining = 300 - elapsed, and a request arriving at
    or after 300 seconds is accepted. -/
theorem cooldown_law (e : GuardEntry) (now : Nat)
    (hA : e.active = false) (hM : e.timestamp ≤ now) :
    (now - e.timestamp < 300 →
      guardCheck (some e) now =
        TellMoreDecision.rejectedCooldown (300 - (now - e.timestamp)))
    ∧ (300 ≤ now - e.timestamp →
      guardCheck (some e) now = TellMoreDecision.accepted) := by
  constructor
  · intro h
    simp [guardCheck, hA, cooldownSeconds, h]
  · intro h
    simp [guardCheck, hA, cooldownSeconds, Nat.not_lt.mpr h]

/-- Witness for cooldown_law: entry stored at time 20, request at time 120
    (elapsed 100 seconds) is rejected with remaining 200. -/
theorem cooldown_law_witness :
    guardCheck (some { active := false, timestamp := 20 }) 120 =
      TellMoreDecision.rejectedCooldown 200 := by
  have h := cooldown_law { active := false, timestamp := 20 } 120 rfl (by decide)
  exact h.1 (by decide)

/-- Claim C2: evaluation of the interleaving model at the racy schedule.
    Starting from an absent guard entry, two concurrent tell-more requests
    for the same key can both pass the guard check and both start the
    expensive generation work, because the awaited callback.answer between
    the check and the mark-active write is a suspension point. -/
theorem guard_race_both_start :
    (runSchedule 0 initTwoReq raceSchedule).task1.started = true
    ∧ (runSchedule 0 initTwoReq raceSchedule).task2.started = true := by
  decide

/-- Claim C4, counterexample: a request accepted on an absent entry, marked
    active at time 10 and completing at time 50, leaves the guard entry with
    timestamp 10, not the completion time 50 the claim requires. -/
theorem completion_timestamp_not_refreshed :
    ¬ ((tellMoreGuard none 0 10 50 false).1 =
        some { active := false, timestamp := 50 }) := by
  decide

/-- Claim C4, amended: on completion of an accepted tell-more request,
    whether it succeeds or fails, the guard entry ends with active = false
    and the timestamp still holding the mark time (the start of the call),
    independent of the completion time. -/
theorem completion_clears_active_keeps_start_time (entry : Option GuardEntry)
    (checkTime markTime completionTime : Nat) (fails : Bool)
    (h : guardCheck entry checkTime = TellMoreDecision.accepted) :
    (tellMoreGuard entry checkTime markTime completionTime fails).1 =
      some { active := false, timestamp := markTime } := by
  simp [tellMoreGuard, h, completeEntry]

/-- Witness for completion_clears_active_keeps_start_time at an absent
    entry, mark time 10, completion time 50, failing run. -/
theorem completion_clears_active_keeps_start_time_witness :
    (tellMoreGuard none 0 10 50 true).1 =
      some { active := false, timestamp := 10 } :=
  completion_clears_active_keeps_start_time none 0 10 50 true (by decide)

/-- Claim C5: if the flow of an accepted tell-more request raises after the
    entry was marked active, the active flag of the entry is false once the
    handler returns (the except branch at location.py lines 594-595 clears
    it), so no key stays active forever. -/
theorem cleanup_on_failure (entry : Option GuardEntry)
    (checkTime markTime completionTime : Nat)
    (h : guardCheck entry checkTime = TellMoreDecision.accepted) :
    ((tellMoreGuard entry checkTime markTime completionTime true).1.map
        GuardEntry.active) = some false := by
  simp [tellMoreGuard, h, completeEntry]

/-- Witness for cleanup_on_failure at an absent entry. -/
theorem cleanup_on_failure_witness :
    ((tellMoreGuard none 0 10 50 true).1.map GuardEntry.active) = some false :=
  cleanup_on_failure none 0 10 50 (by decide)

/-! ## Place pipeline (app/google_maps.py and app/handlers/location.py) -/

/-- Coordinates carried on a place; the numeric values are only passed to
    the distance oracle, so integers suffice for the embedding. -/
structure Pos where
  lat : Int
  lng : Int
deriving DecidableEq

/-- A place as formatted by get_nearby_places (app/google_maps.py
    lines 203-218) before the handler attaches a distance. -/
structure RawPlace where
  id : String
  title : String
  pos : Pos
deriving DecidableEq

/-- A place after handle_location attached the geodesic distance from the
    search origin (location.py lines 112-115). -/
structure Place where
  id : String
  title : String
  pos : Pos
  distance : Nat
deriving DecidableEq

/-- Attach the computed distance from the origin; the geodesic computation
    itself is the oracle dist. -/
def attachDistance (dist : Pos → Nat) (p : RawPlace) : Place :=
  { id := p.id, title := p.title, pos := p.pos, distance := dist p.pos }

/-- One step of the accumulation loop inside get_nearby_places
    (app/google_maps.py lines 219-221): a formatted place is appended only
    if no already accumulated place has the same id. -/
def providerAdd (places : List RawPlace) (p : RawPlace) : List RawPlace :=
  if places.any (fun q => q.id == p.id) then places else places ++ [p]

/-- The id-deduplicated place list one get_nearby_places call returns,
    folded over the concatenation of the per-type API responses. -/
def providerPlaces (raw : List RawPlace) : List RawPlace :=
  raw.foldl providerAdd []

/-- Case-insensitive substring test, mirroring the Python expression
    "unknown" in title.lower() (location.py lines 109, 124, 154).
    matchesAt needle hay holds when hay begins with needle. -/
def matchesAt : List Char → List Char → Bool
  | [], _ => true
  | _ :: _, [] => false
  | a :: as, b :: bs => a == b && matchesAt as bs

/-- Whether needle occurs as a contiguous substring of hay. -/
def containsSub (needle : List Char) : List Char → Bool
  | [] => needle.isEmpty
  | c :: cs => matchesAt needle (c :: cs) || containsSub needle cs

/-- The unusable-name sentinel test of handle_location: lowercase the
    title character by character and look for the sentinel substring. -/
def hasUnknownName (title : String) : Bool :=
  containsSub ("unknown".toList) (title.toList.map Char.toLower)

/-- Body of the tier-1 processing loop (location.py lines 108-116): skip a
    place whose lowercased title holds the sentinel, otherwise attach the
    distance and append.  No id check is made here. -/
def tier1Step (dist : Pos → Nat) (acc : List Place) (p : RawPlace) : List Place :=
  if hasUnknownName p.title then acc else acc ++ [attachDistance dist p]

/-- Tier-1 processing loop over the provider order (location.py
    lines 107-116). -/
def tier1Filter (dist : Pos → Nat) (places : List RawPlace) : List Place :=
  places.foldl (tier1Step dist) []

/-- Body of the merge loop for the wider and widest tiers (location.py
    lines 123-131 and 153-161): skip sentinel names, skip candidates whose
    id already appears in the accumulated list, attach the distance and
    append the rest. -/
def mergeStep (dist : Pos → Nat) (acc : List Place) (p : RawPlace) : List Place :=
  if hasUnknownName p.title then acc
  else if acc.any (fun q => q.id == p.id) then acc
  else acc ++ [attachDistance dist p]

/-- Merge loop of the wider and widest tiers into the accumulated list. -/
def mergeTier (dist : Pos → Nat) (acc : List Place) (newPlaces : List RawPlace) :
    List Place :=
  newPlaces.foldl (mergeStep dist) acc

/-- The wider-search launch condition (location.py line 93): the raw,
    unfiltered tier-1 provider list is compared against the threshold 5. -/
def widerLaunched (tier1 : List RawPlace) : Bool := tier1.length < 5

/-- Tier-1 processing plus the wider-tier merge (location.py lines 93-137).
    tier2 is some l when the background 5 km task was launched and
    completed within the 3 second join, returning l; it is consulted only
    when the launch condition held. -/
def accumulateWider (dist : Pos → Nat) (tier1 : List RawPlace)
    (tier2 : Option (List RawPlace)) : List Place :=
  if widerLaunched tier1 then
    match tier2 with
    | some l => mergeTier dist (tier1Filter dist tier1) l
    | none => tier1Filter dist tier1
  else tier1Filter dist tier1

/-- The widest-tier step (location.py lines 139-163): run only when fewer
    than 2 candidates were accumulated; tier3 is some l when the 10 km
    call finished within its 4 second ceiling. -/
def accumulateWidest (dist : Pos → Nat) (v : List Place)
    (tier3 : Option (List RawPlace)) : List Place :=
  if v.length < 2 then
    match tier3 with
    | some l => mergeTier dist v l
    | none => v
  else v

/-- Accumulation across the three tiers (location.py lines 93-163). -/
def accumulatePlaces (dist : Pos → Nat) (tier1 : List RawPlace)
    (tier2 tier3 : Option (List RawPlace)) : List Place :=
  accumulateWidest dist (accumulateWider dist tier1 tier2) tier3

/-- Distance comparison used for the final sort. -/
def distLe (a b : Place) : Prop := a.distance ≤ b.distance

instance : DecidableRel distLe := fun a b => Nat.decLe a.distance b.distance

instance : IsTotal Place distLe := ⟨fun a b => Nat.le_total a.distance b.distance⟩

instance : IsTrans Place distLe := ⟨fun _ _ _ h h2 => Nat.le_trans h h2⟩

/-- Final ranking (location.py lines 169-170): a stable ascending sort on
    the distance key, then keep at most the first 5 places. -/
def rankPlaces (l : List Place) : List Place :=
  (l.insertionSort distLe).take 5

/-- The list stored in the session by handle_location: the raw API responses of each tier pass
    responses pass through the provider-level id dedup of get_nearby_places
    before the handler filters, merges, ranks and truncates them. -/
def handleLocationPlaces (dist : Pos → Nat) (raw1 : List RawPlace)
    (raw2 raw3 : Option (List RawPlace)) : List Place :=
  rankPlaces
    (accumulatePlaces dist (providerPlaces raw1)
      (raw2.map providerPlaces) (raw3.map providerPlaces))

/-! ## Invariants of the pipeline -/

/-- No two raw places share an id. -/
def rawIdsNodup (l : List RawPlace) : Prop :=
  l.Pairwise (fun a b => a.id ≠ b.id)

/-- No two ranked places share an id. -/
def idsNodup (l : List Place) : Prop :=
  l.Pairwise (fun a b => a.id ≠ b.id)

theorem providerAdd_nodup (acc : List RawPlace) (p : RawPlace)
    (h : rawIdsNodup acc) : rawIdsNodup (providerAdd acc p) := by
  by_cases hany : acc.any (fun q => q.id == p.id) = true
  · simpa [providerAdd, hany] using h
  · unfold rawIdsNodup at *
    simp only [providerAdd, hany, if_false, Bool.false_eq_true]
    rw [List.pairwise_append]
    refine ⟨h, List.pairwise_singleton _ _, ?_⟩
    intro a ha b hb
    simp only [List.mem_singleton] at hb
    subst hb
    have hall := List.any_eq_false.mp (Bool.eq_false_iff.mpr hany) a ha
    simpa using hall

theorem foldl_providerAdd_nodup :
    ∀ (l acc : List RawPlace), rawIdsNodup acc →
      rawIdsNodup (l.foldl providerAdd acc)
  | [], acc, h => h
  | p :: l, acc, h =>
    foldl_providerAdd_nodup l (providerAdd acc p) (providerAdd_nodup acc p h)

/-- The place list one get_nearby_places call returns has pairwise
    distinct ids. -/
theorem providerPlaces_nodup (raw : List RawPlace) :
    rawIdsNodup (providerPlaces raw) :=
  foldl_providerAdd_nodup raw [] (List.Pairwise.nil)

/-- The tier-1 loop is the unknown-name filter followed by distance
    attachment. -/
theorem foldl_tier1Step_eq (dist : Pos → Nat) :
    ∀ (l : List RawPlace) (acc : List Place),
      l.foldl (tier1Step dist) acc =
        acc ++ (l.filter (fun p => !hasUnknownName p.title)).map
          (attachDistance dist) := by
  intro l
  induction l with
  | nil => intro acc; simp
  | cons p l ih =>
    intro acc
    by_cases hp : hasUnknownName p.title = true
    · simp [tier1Step, hp, ih]
    · simp [tier1Step, hp, ih, List.filter_cons, List.append_assoc]

theorem tier1Filter_eq (dist : Pos → Nat) (l : List RawPlace) :
    tier1Filter dist l =
      (l.filter (fun p => !hasUnknownName p.title)).map (attachDistance dist) := by
  simpa using foldl_tier1Step_eq dist l []

theorem tier1Filter_nodup (dist : Pos → Nat) (l : List RawPlace)
    (h : rawIdsNodup l) : idsNodup (tier1Filter dist l) := by
  rw [tier1Filter_eq]
  unfold idsNodup
  rw [List.pairwise_map]
  exact List.Pairwise.sublist (List.filter_sublist l) h

theorem tier1Filter_no_unknown (dist : Pos → Nat) (l : List RawPlace) :
    ∀ p ∈ tier1Filter dist l, hasUnknownName p.title = false := by
  intro p hp
  rw [tier1Filter_eq] at hp
  rcases List.mem_map.mp hp with ⟨q, hq, rfl⟩
  have := List.of_mem_filter hq
  simpa [attachDistance] using this

theorem mergeStep_nodup (dist : Pos → Nat) (acc : List Place) (p : RawPlace)
    (h : idsNodup acc) : idsNodup (mergeStep dist acc p) := by
  by_cases hu : hasUnknownName p.title = true
  · simpa [mergeStep, hu] using h
  · by_cases hany : acc.any (fun q => q.id == p.id) = true
    · simpa [mergeStep, hu, hany] using h
    · unfold idsNodup at *
      simp only [mergeStep, hu, hany, if_false, Bool.false_eq_true]
      rw [List.pairwise_append]
      refine ⟨h, List.pairwise_singleton _ _, ?_⟩
      intro a ha b hb
      simp only [List.mem_singleton] at hb
      subst hb
      have hall := List.any_eq_false.mp (Bool.eq_false_iff.mpr hany) a ha
      simpa [attachDistance] using hall

theorem mergeTier_nodup (dist : Pos → Nat) :
    ∀ (l : List RawPlace) (acc : List Place), idsNodup acc →
      idsNodup (mergeTier dist acc l)
  | [], _, h => h
  | p :: l, acc, h =>
    mergeTier_nodup dist l (mergeStep dist acc p) (mergeStep_nodup dist acc p h)

theorem mergeStep_no_unknown (dist : Pos → Nat) (acc : List Place) (p : RawPlace)
    (h : ∀ q ∈ acc, hasUnknownName q.title = false) :
    ∀ q ∈ mergeStep dist acc p, hasUnknownName q.title = false := by
  intro q hq
  by_cases hu : hasUnknownName p.title = true
  · exact h q (by simpa [mergeStep, hu] using hq)
  · by_cases hany : acc.any (fun r => r.id == p.id) = true
    · exact h q (by simpa [mergeStep, hu, hany] using hq)
    · simp only [mergeStep, hu, hany, if_false, Bool.false_eq_true,
        List.mem_append, List.mem_singleton] at hq
      rcases hq with hq | rfl
      · exact h q hq
      · simpa [attachDistance] using Bool.eq_false_iff.mpr hu

theorem mergeTier_no_unknown (dist : Pos → Nat) :
    ∀ (l : List RawPlace) (acc : List Place),
      (∀ q ∈ acc, hasUnknownName q.title = false) →
      ∀ q ∈ mergeTier dist acc l, hasUnknownName q.title = false
  | [], _, h => h
  | p :: l, acc, h =>
    mergeTier_no_unknown dist l (mergeStep dist acc p)
      (mergeStep_no_unknown dist acc p h)

theorem accumulateWider_nodup (dist : Pos → Nat) (tier1 : List RawPlace)
    (tier2 : Option (List RawPlace)) (h1 : rawIdsNodup tier1) :
    idsNodup (accumulateWider dist tier1 tier2) := by
  have hv1 : idsNodup (tier1Filter dist tier1) := tier1Filter_nodup dist tier1 h1
  unfold accumulateWider
  split
  · cases tier2 with
    | some l => exact mergeTier_nodup dist l _ hv1
    | none => exact hv1
  · exact hv1

theorem accumulateWidest_nodup (dist : Pos → Nat) (v : List Place)
    (tier3 : Option (List RawPlace)) (h : idsNodup v) :
    idsNodup (accumulateWidest dist v tier3) := by
  unfold accumulateWidest
  split
  · cases tier3 with
    | some l => exact mergeTier_nodup dist l _ h
    | none => exact h
  · exact h

theorem accumulatePlaces_nodup (dist : Pos → Nat) (tier1 : List RawPlace)
    (tier2 tier3 : Option (List RawPlace)) (h1 : rawIdsNodup tier1) :
    idsNodup (accumulatePlaces dist tier1 tier2 tier3) :=
  accumulateWidest_nodup dist _ tier3
    (accumulateWider_nodup dist tier1 tier2 h1)

theorem accumulateWider_no_unknown (dist : Pos → Nat) (tier1 : List RawPlace)
    (tier2 : Option (List RawPlace)) :
    ∀ q ∈ accumulateWider dist tier1 tier2, hasUnknownName q.title = false := by
  have hv1 := tier1Filter_no_unknown dist tier1
  unfold accumulateWider
  split
  · cases tier2 with
    | some l => exact mergeTier_no_unknown dist l _ hv1
    | none => exact hv1
  · exact hv1

theorem accumulateWidest_no_unknown (dist : Pos → Nat) (v : List Place)
    (tier3 : Option (List RawPlace))
    (h : ∀ q ∈ v, hasUnknownName q.title = false) :
    ∀ q ∈ accumulateWidest dist v tier3, hasUnknownName q.title = false := by
  unfold accumulateWidest
  split
  · cases tier3 with
    | some l => exact mergeTier_no_unknown dist l _ h
    | none => exact h
  · exact h

theorem accumulatePlaces_no_unknown (dist : Pos → Nat) (tier1 : List RawPlace)
    (tier2 tier3 : Option (List RawPlace)) :
    ∀ q ∈ accumulatePlaces dist tier1 tier2 tier3,
      hasUnknownName q.title = false :=
  accumulateWidest_no_unknown dist _ tier3
    (accumulateWider_no_unknown dist tier1 tier2)

/-! ## Ranking lemmas -/

theorem rankPlaces_length (l : List Place) : (rankPlaces l).length ≤ 5 := by
  unfold rankPlaces
  exact List.length_take_le 5 (l.insertionSort distLe)

theorem rankPlaces_sorted (l : List Place) :
    (rankPlaces l).Pairwise distLe := by
  have hs : (l.insertionSort distLe).Pairwise distLe :=
    List.sorted_insertionSort distLe l
  exact List.Pairwise.sublist (List.take_sublist 5 _) hs

theorem rankPlaces_pairwise_ne (l : List Place) (h : idsNodup l) :
    idsNodup (rankPlaces l) := by
  unfold rankPlaces
  have hperm : (l.insertionSort distLe).Perm l := List.perm_insertionSort distLe l
  have hs : idsNodup (l.insertionSort distLe) :=
    (hperm.pairwise_iff (fun h => h.symm)).mpr h
  exact List.Pairwise.sublist (List.take_sublist 5 _) hs

theorem rankPlaces_mem (l : List Place) (p : Place) (hp : p ∈ rankPlaces l) :
    p ∈ l := by
  unfold rankPlaces at hp
  exact (List.perm_insertionSort distLe l).mem_iff.mp
    ((List.take_sublist 5 _).subset hp)

/-! ## Concrete inputs used by the pipeline witnesses -/

/-- Distance oracle for the examples: the latitude, read as meters. -/
def exDist : Pos → Nat := fun p => p.lat.toNat

def exFort : RawPlace := { id := "a", title := "Old Fort", pos := { lat := 2, lng := 0 } }

def exPark : RawPlace := { id := "b", title := "City Park", pos := { lat := 1, lng := 0 } }

/-- Five provider results that all carry the unusable-name sentinel. -/
def exUnknownFive : List RawPlace :=
  [ { id := "u1", title := "Unknown Place", pos := { lat := 1, lng := 0 } },
    { id := "u2", title := "Unknown Place", pos := { lat := 2, lng := 0 } },
    { id := "u3", title := "Unknown Place", pos := { lat := 3, lng := 0 } },
    { id := "u4", title := "Unknown Place", pos := { lat := 4, lng := 0 } },
    { id := "u5", title := "Unknown Place", pos := { lat := 5, lng := 0 } } ]

/-! ## Claims about the pipeline -/

/-- Claim C6: whatever raw result lists the three radius tiers return, no
    two places in the final ranked output share an id: get_nearby_places
    deduplicates within one call and each merge step skips a candidate
    whose id already appears in the accumulated list. -/
theorem ranked_ids_nodup (dist : Pos → Nat) (raw1 : List RawPlace)
    (raw2 raw3 : Option (List RawPlace)) :
    (handleLocationPlaces dist raw1 raw2 raw3).Pairwise
      (fun a b => a.id ≠ b.id) := by
  unfold handleLocationPlaces
  exact rankPlaces_pairwise_ne _
    (accumulatePlaces_nodup dist _ _ _ (providerPlaces_nodup raw1))

/-- Claim C7: the ranked output stored in the session holds at most 5
    places and is ordered ascending by the computed distance field. -/
theorem ranked_sorted_and_truncated (dist : Pos → Nat) (raw1 : List RawPlace)
    (raw2 raw3 : Option (List RawPlace)) :
    (handleLocationPlaces dist raw1 raw2 raw3).length ≤ 5
    ∧ ∀ (i : Nat) (h : i + 1 < (handleLocationPlaces dist raw1 raw2 raw3).length),
        ((handleLocationPlaces dist raw1 raw2 raw3).get
            ⟨i, Nat.lt_of_succ_lt h⟩).distance
          ≤ ((handleLocationPlaces dist raw1 raw2 raw3).get ⟨i + 1, h⟩).distance := by
  unfold handleLocationPlaces
  refine ⟨rankPlaces_length _, ?_⟩
  intro i h
  have hs := rankPlaces_sorted
    (accumulatePlaces dist (providerPlaces raw1)
      (raw2.map providerPlaces) (raw3.map providerPlaces))
  exact List.pairwise_iff_get.mp hs ⟨i, Nat.lt_of_succ_lt h⟩ ⟨i + 1, h⟩
    (Fin.mk_lt_mk.mpr (Nat.lt_succ_self i))

/-- Witness for ranked_sorted_and_truncated: two named places at distances
    2 and 1 give a ranked output whose first entry is at most as far as the
    second. -/
theorem ranked_sorted_and_truncated_witness :
    (handleLocationPlaces exDist [exFort, exPark] none none).length ≤ 5
    ∧ ((handleLocationPlaces exDist [exFort, exPark] none none).get
          ⟨0, by decide⟩).distance
        ≤ ((handleLocationPlaces exDist [exFort, exPark] none none).get
          ⟨1, by decide⟩).distance :=
  ⟨(ranked_sorted_and_truncated exDist [exFort, exPark] none none).1,
    (ranked_sorted_and_truncated exDist [exFort, exPark] none none).2 0 (by decide)⟩

/-- Claim C8: no place whose display name holds the case-insensitive
    sentinel "unknown" ever appears in the ranked output stored in the
    session, whatever the three tiers returned. -/
theorem ranked_no_unknown (dist : Pos → Nat) (raw1 : List RawPlace)
    (raw2 raw3 : Option (List RawPlace)) (p : Place)
    (hp : p ∈ handleLocationPlaces dist raw1 raw2 raw3) :
    hasUnknownName p.title = false := by
  unfold handleLocationPlaces at hp
  exact accumulatePlaces_no_unknown dist _ _ _ p (rankPlaces_mem _ p hp)

/-- Witness for ranked_no_unknown: with a tier-1 answer mixing a sentinel
    name and two usable places, the first ranked place has a usable name. -/
theorem ranked_no_unknown_witness :
    hasUnknownName (attachDistance exDist exPark).title = false :=
  ranked_no_unknown exDist
    [exFort, { id := "u1", title := "Unknown Place", pos := { lat := 0, lng := 0 } },
      exPark]
    none none (attachDistance exDist exPark) (by decide)

/-- Claim C9: the wider-search launch decision compares the raw, unfiltered
    tier-1 provider count against 5, so a tier-1 answer of 5 or more places
    starts no tier-2 search and the tier-2 input is ignored, even when all
    those places carry the unusable-name sentinel. -/
theorem wider_launch_counts_raw (dist : Pos → Nat) (tier1 : List RawPlace)
    (tier2 : List RawPlace) (tier3 : Option (List RawPlace))
    (h : 5 ≤ tier1.length) :
    widerLaunched tier1 = false
    ∧ accumulatePlaces dist tier1 (some tier2) tier3 =
        accumulatePlaces dist tier1 none tier3 := by
  have hw : widerLaunched tier1 = false := by
    simp only [widerLaunched, decide_eq_false_iff_not, Nat.not_lt]
    exact h
  refine ⟨hw, ?_⟩
  unfold accumulatePlaces accumulateWider
  rw [hw]
  simp

/-- Witness for wider_launch_counts_raw: five sentinel-named tier-1 places
    count toward the threshold, so the tier-2 result is ignored even though
    every tier-1 place is later filtered out. -/
theorem wider_launch_counts_raw_witness :
    tier1Filter exDist exUnknownFive = []
    ∧ (widerLaunched exUnknownFive = false
      ∧ accumulatePlaces exDist exUnknownFive (some [exPark]) none =
          accumulatePlaces exDist exUnknownFive none none) :=
  ⟨by decide, wider_launch_counts_raw exDist exUnknownFive [exPark] none (by decide)⟩

/-! ## Enrichment (show_place, app/handlers/location.py lines 245-276) -/

/-- The enrichment-relevant fields of one place dict.  Key absence in the
    Python dict is an Option none here; title and address label are always
    present once a place reached the session. -/
structure EnrichPlace where
  title : String
  originalTitle : Option String
  addressLabel : String
  originalAddress : Option String
  pos : Pos
deriving DecidableEq

/-- The placeholder the provider formatter writes when no address came
    back (app/google_maps.py line 212). -/
def addressPlaceholder : String := "Address will be fetched"

/-- The needs-processing predicate (location.py lines 245-250): the
    original-title key is absent, or the address label still equals the
    placeholder, or the title equals the stored original title. -/
def needsProcessing (p : EnrichPlace) : Bool :=
  p.originalTitle.isNone || p.addressLabel == addressPlaceholder
    || some p.title == p.originalTitle

/-- The enrichment body (location.py lines 252-271) as a pure step over
    the record, with the reverse geocoder and the translator as oracles.
    The second component counts collaborator calls: one geocoding call and
    two translation calls when the predicate holds, none otherwise. -/
def enrichStep (geocode : Pos → String) (translate : String → String)
    (p : EnrichPlace) : EnrichPlace × Nat :=
  if needsProcessing p then
    let detailed := geocode p.pos
    let origTitle := p.originalTitle.getD p.title
    ({ p with
        originalTitle := some origTitle,
        originalAddress := some detailed,
        title := translate origTitle,
        addressLabel := translate detailed }, 3)
  else (p, 0)

/-- Claim C3, counterexample: when the translator returns the name
    unchanged — which is exactly what the failure fallback of
    translate_to_english does (app/generators.py lines 382-386), and what
    happens for a name already in the display language — the
    needs-processing predicate is still true after a completed enrichment,
    so the second invocation is not a no-op: it performs three further
    collaborator calls. -/
theorem enrich_not_idempotent :
    needsProcessing (enrichStep (fun _ => "1 Main Street") (fun s => s)
        { title := "City Museum", originalTitle := none,
          addressLabel := addressPlaceholder, originalAddress := none,
          pos := { lat := 0, lng := 0 } }).1 = true
    ∧ (enrichStep (fun _ => "1 Main Street") (fun s => s)
        (enrichStep (fun _ => "1 Main Street") (fun s => s)
          { title := "City Museum", originalTitle := none,
            addressLabel := addressPlaceholder, originalAddress := none,
            pos := { lat := 0, lng := 0 } }).1).2 = 3 := by
  decide

/-- Claim C3, amended: provided the translation of the original title
    differs from the original title and the translated address differs
    from the placeholder, one completed enrichment makes the predicate
    false and a second invocation returns the record unchanged with zero
    collaborator calls. -/
theorem enrich_idempotent (geocode : Pos → String) (translate : String → String)
    (p : EnrichPlace)
    (ht : translate (p.originalTitle.getD p.title) ≠ p.originalTitle.getD p.title)
    (ha : translate (geocode p.pos) ≠ addressPlaceholder) :
    needsProcessing (enrichStep geocode translate p).1 = false
    ∧ enrichStep geocode translate (enrichStep geocode translate p).1 =
        ((enrichStep geocode translate p).1, 0) := by
  by_cases hp : needsProcessing p = true
  · have hfalse : needsProcessing (enrichStep geocode translate p).1 = false := by
      simp only [enrichStep, hp, if_true]
      simp only [needsProcessing, Option.isNone_some, Bool.false_or]
      rw [Bool.or_eq_false_iff]
      refine ⟨beq_eq_false_iff_ne.mpr ha, ?_⟩
      exact beq_eq_false_iff_ne.mpr
        (fun hcontra => ht (Option.some.inj hcontra))
    set q := (enrichStep geocode translate p).1 with hq
    refine ⟨hfalse, ?_⟩
    simp [enrichStep, hfalse]
  · have hp2 : needsProcessing p = false := Bool.eq_false_iff.mpr hp
    have h1 : (enrichStep geocode translate p).1 = p := by
      simp [enrichStep, hp2]
    rw [h1]
    exact ⟨hp2, by simp [enrichStep, hp2]⟩

/-- Witness for enrich_idempotent: a translator that marks its output and
    a geocoder returning a street address satisfy both hypotheses, and the
    second enrichment is a no-op. -/
theorem enrich_idempotent_witness :
    needsProcessing (enrichStep (fun _ => "Main Street 1")
        (fun s => String.append "EN " s)
        { title := "City Museum", originalTitle := none,
          addressLabel := addressPlaceholder, originalAddress := none,
          pos := { lat := 0, lng := 0 } }).1 = false
    ∧ enrichStep (fun _ => "Main Street 1") (fun s => String.append "EN " s)
        (enrichStep (fun _ => "Main Street 1") (fun s => String.append "EN " s)
          { title := "City Museum", originalTitle := none,
            addressLabel := addressPlaceholder, originalAddress := none,
            pos := { lat := 0, lng := 0 } }).1 =
        ((enrichStep (fun _ => "Main Street 1") (fun s => String.append "EN " s)
          { title := "City Museum", originalTitle := none,
            addressLabel := addressPlaceholder, originalAddress := none,
            pos := { lat := 0, lng := 0 } }).1, 0) :=
  enrich_idempotent (fun _ => "Main Street 1") (fun s => String.append "EN " s)
    { title := "City Museum", originalTitle := none,
      addressLabel := addressPlaceholder, originalAddress := none,
      pos := { lat := 0, lng := 0 } }
    (by decide) (by decide)

/-! ## Cross-session process state
(app/handlers/state.py lines 13-16, location.py lines 180-191) -/

/-- Key of the active_deepseek_requests map.  The source builds the string
    from the user id and the place index; that encoding is injective on
    the integer pairs the code uses, so the pair itself is the key here. -/
abbrev GuardKey := Nat × Nat

/-- Python dict read on the guard map. -/
def mapGet (m : List (GuardKey × GuardEntry)) (k : GuardKey) :
    Option GuardEntry :=
  (m.find? (fun kv => kv.1 == k)).map Prod.snd

/-- Python dict write on the guard map (replace or add). -/
def mapSet (m : List (GuardKey × GuardEntry)) (k : GuardKey) (v : GuardEntry) :
    List (GuardKey × GuardEntry) :=
  (k, v) :: m.filter (fun kv => kv.1 != k)

/-- Python dict write on the session map. -/
def sessionSet (m : List (Nat × List Place)) (k : Nat) (v : List Place) :
    List (Nat × List Place) :=
  (k, v) :: m.filter (fun kv => kv.1 != k)

/-- The process-wide mutable state the claims touch: user_data maps a user
    id to the ranked places of its current session,
    active_deepseek_requests maps (user id, place index) to a guard
    entry (app/handlers/state.py lines 13-16). -/
structure BotState where
  sessions : List (Nat × List Place)
  guard : List (GuardKey × GuardEntry)
deriving DecidableEq

/-- Effect of handle_location on the process state (location.py
    lines 180-191): the session entry of the user is replaced wholesale;
    the guard map is not touched. -/
def handleLocationState (st : BotState) (uid : Nat) (ranked : List Place) :
    BotState :=
  { st with sessions := sessionSet st.sessions uid ranked }

/-- Effect of one whole handle_tell_more request on the process state
    (location.py lines 404-601): the guard entry of (uid, idx) is read at
    checkTime; on acceptance it is written with active := true and
    timestamp markTime and, when the flow finishes at completionTime
    (success or failure), only the active flag is cleared; a rejected
    request leaves the state unchanged. -/
def tellMoreState (st : BotState) (uid idx : Nat)
    (checkTime markTime completionTime : Nat) (fails : Bool) :
    BotState × TellMoreDecision :=
  match guardCheck (mapGet st.guard (uid, idx)) checkTime with
  | TellMoreDecision.accepted =>
    let entry := completeEntry { active := true, timestamp := markTime }
    ({ st with guard := mapSet st.guard (uid, idx) entry },
      TellMoreDecision.accepted)
  | d => (st, d)

def exPlaceOld : Place :=
  { id := "a", title := "Old Fort", pos := { lat := 2, lng := 0 }, distance := 2 }

def exPlaceNew : Place :=
  { id := "b", title := "City Park", pos := { lat := 1, lng := 0 }, distance := 1 }

/-- Claim C10, counterexample: user 7 runs tell-more for index 0 starting
    at time 0 and completing at time 250, shares a new location at 260
    (the session is replaced, the guard entry survives), and asks again at
    time 310.  The completion lies 60 seconds in the past, less than the
    300 second cooldown, yet the request is accepted, because the guard
    timestamp holds the start time 0 and 310 - 0 is past the window. -/
theorem stale_guard_not_rejected_within_cooldown_of_completion :
    (tellMoreState
      (handleLocationState
        (tellMoreState
          (handleLocationState { sessions := [], guard := [] } 7 [exPlaceOld])
          7 0 0 0 250 false).1
        7 [exPlaceNew])
      7 0 310 310 360 false).2 = TellMoreDecision.accepted
    ∧ 310 - 250 < 300 := by
  decide

/-- Claim C10, amended: guard entries survive a new location message
    untouched, and a tell-more request in the fresh session is rejected by
    the cooldown whenever the previous request for the same key was
    accepted (marked active) less than 300 seconds earlier, with the
    remaining seconds computed from that start time. -/
theorem stale_guard_rejects_across_sessions (st : BotState) (uid idx : Nat)
    (ranked : List Place) (tm now markT endT : Nat) (fails : Bool)
    (hg : mapGet st.guard (uid, idx) = some { active := false, timestamp := tm })
    (hmono : tm ≤ now) (hlt : now - tm < 300) :
    (handleLocationState st uid ranked).guard = st.guard
    ∧ (tellMoreState (handleLocationState st uid ranked) uid idx
        now markT endT fails).2 =
          TellMoreDecision.rejectedCooldown (300 - (now - tm))
    ∧ (tellMoreState (handleLocationState st uid ranked) uid idx
        now markT endT fails).1 = handleLocationState st uid ranked := by
  have hg2 : mapGet (handleLocationState st uid ranked).guard (uid, idx) =
      some { active := false, timestamp := tm } := hg
  have hd : guardCheck (mapGet (handleLocationState st uid ranked).guard
      (uid, idx)) now = TellMoreDecision.rejectedCooldown (300 - (now - tm)) := by
    rw [hg2]
    simp [guardCheck, cooldownSeconds, hlt]
  refine ⟨rfl, ?_, ?_⟩ <;> simp [tellMoreState, hd]

/-- Witness for stale_guard_rejects_across_sessions: an entry marked at
    time 100 rejects a post-relocation request at time 150 with 250
    seconds remaining. -/
theorem stale_guard_rejects_across_sessions_witness :
    (handleLocationState
        { sessions := [(7, [exPlaceOld])],
          guard := [((7, 0), { active := false, timestamp := 100 })] }
        7 [exPlaceNew]).guard =
      [((7, 0), { active := false, timestamp := 100 })]
    ∧ (tellMoreState (handleLocationState
        { sessions := [(7, [exPlaceOld])],
          guard := [((7, 0), { active := false, timestamp := 100 })] }
        7 [exPlaceNew]) 7 0 150 150 200 false).2 =
          TellMoreDecision.rejectedCooldown 250
    ∧ (tellMoreState (handleLocationState
        { sessions := [(7, [exPlaceOld])],
          guard := [((7, 0), { active := false, timestamp := 100 })] }
        7 [exPlaceNew]) 7 0 150 150 200 false).1 =
        handleLocationState
          { sessions := [(7, [exPlaceOld])],
            guard := [((7, 0), { active := false, timestamp := 100 })] }
          7 [exPlaceNew] :=
  stale_guard_rejects_across_sessions
    { sessions := [(7, [exPlaceOld])],
      guard := [((7, 0), { active := false, timestamp := 100 })] }
    7 0 [exPlaceNew] 100 150 150 200 false (by decide) (by decide) (by decide)

end NEST
